import Mathlib

/-
  Shallow embedding of glancecare/restate_client_py.

  The repository is a thin HTTP client (src/src/restate_client/{base,sync_client,async_client}.py).
  Each client operation is embedded as a pure function from its Python arguments, the state of the
  session (present or absent, mirroring the PYTEST environment guard in base.py), and a server
  oracle describing how the network answers each request, to an outcome: the list of HTTP requests
  actually issued together with the Python-level result (a returned value or a raised exception).

  Third-party library behaviour that the code relies on is modelled from the libraries' documented
  semantics: requests.Response.raise_for_status raises HTTPError for 4xx/5xx with a message that
  embeds the URL; requests JSONDecodeError is a RequestException; aiohttp raise_for_status raises
  ClientResponseError for status >= 400 whose str embeds the URL; aiohttp connection errors are
  ClientError instances carrying no status attribute (aiohttp 3.13, pinned in setup.py).
-/

namespace RestateClientPy

/-- HTTP method of an issued request. -/
inductive Method where
  | get
  | post
  | delete
deriving DecidableEq

/-- A JSON-object payload: a Python dict modelled as an association list. -/
abbrev Dict := List (String × String)

/-- Python truthiness of an optional dict argument (None and the empty dict are falsy). -/
def truthyDict : Option Dict → Bool
  | some (_ :: _) => true
  | _ => false

/-- Python truthiness of an optional string argument (None and the empty string are falsy). -/
def truthyStr : Option String → Bool
  | some s => s != ""
  | none => false

/-- An HTTP request as issued by the client: method, URL, JSON body (for POST),
and the idempotency-key header when one was set. -/
structure Request where
  method : Method
  url : String
  body : Option Dict := none
  idempotencyKey : Option String := none
deriving DecidableEq

/-- An HTTP response: status code, body text, Content-Type header value, whether the
body text parses as JSON, and the HTTP reason phrase. -/
structure Response where
  status : Nat
  text : String
  contentType : String
  jsonValid : Bool
  reason : String := ""
deriving DecidableEq

/-- How the server reacts to a request: a connection-level failure or a response. -/
inductive ServerBehavior where
  | connError (msg : String)
  | respond (resp : Response)
deriving DecidableEq

/-- A Python-level return value of a client operation. -/
inductive PyValue where
  | pyNone
  | emptyDict
  | jsonOf (text : String)
  | textOf (text : String)
deriving DecidableEq

/-- A Python-level exception raised by a client operation. -/
inductive PyError where
  | valueError (msg : String)
  | httpError (status : Nat) (msg : String)
  | requestException (msg : String)
  | jsonDecodeError (msg : String)
  | clientError (msg : String)
  | clientResponseError (status : Nat) (msg : String)
  | terminalError (msg : String)
  | attributeError (msg : String)
deriving DecidableEq

/-- Outcome of a call: the requests issued over the network, in order, and the
returned value or raised exception. -/
abbrev Outcome := List Request × Except PyError PyValue

/-- The URLs of the requests issued by a call. -/
def issuedUrls (o : Outcome) : List String := o.1.map Request.url

/-- The methods of the requests issued by a call. -/
def issuedMethods (o : Outcome) : List Method := o.1.map Request.method

/-- True when the outcome raised an input-validation error (Python ValueError). -/
def isValidationError : Except PyError PyValue → Bool
  | .error (.valueError _) => true
  | _ => false

/-- True when the outcome raised a terminal failure (restate TerminalError). -/
def isTerminalFailure : Except PyError PyValue → Bool
  | .error (.terminalError _) => true
  | _ => false

/-- True when the outcome raised any exception. -/
def raisesError : Except PyError PyValue → Bool
  | .error _ => true
  | _ => false

/-- Chars of the first list occur as a prefix of the second. -/
def startsWithChars : List Char → List Char → Bool
  | [], _ => true
  | _ :: _, [] => false
  | a :: as, b :: bs => a == b && startsWithChars as bs

/-- Chars of the needle occur contiguously somewhere in the hay. -/
def hasSubChars (needle : List Char) : List Char → Bool
  | [] => needle.isEmpty
  | b :: bs => startsWithChars needle (b :: bs) || hasSubChars needle bs

/-- Python substring test: needle occurs in hay. -/
def strContainsSub (hay needle : String) : Bool := hasSubChars needle.toList hay.toList

/-- Python str.lower restricted to the ASCII characters used by Content-Type values. -/
def lowerStr (s : String) : String := String.mk (s.toList.map Char.toLower)

/-- Content-Type check used by the async client: application/json occurs in the
lowercased header value. -/
def contentTypeIsJson (ct : String) : Bool := strContainsSub (lowerStr ct) "application/json"

/-- Models requests.Response.raise_for_status: for a 4xx/5xx status it produces the status
and the exception message, which embeds the URL; otherwise nothing is raised. -/
def requestsRaiseForStatus (resp : Response) (url : String) : Option (Nat × String) :=
  if 400 ≤ resp.status && resp.status < 500 then
    some (resp.status, toString resp.status ++ " Client Error: " ++ resp.reason ++ " for url: " ++ url)
  else if 500 ≤ resp.status && resp.status < 600 then
    some (resp.status, toString resp.status ++ " Server Error: " ++ resp.reason ++ " for url: " ++ url)
  else
    none

/-- Str of an aiohttp ClientResponseError: status, message and URL. -/
def aiohttpErrStr (status : Nat) (reason url : String) : String :=
  toString status ++ ", message=" ++ reason ++ ", url=" ++ url

/-- Models aiohttp ClientResponse.raise_for_status: ClientResponseError for status >= 400. -/
def aiohttpRaiseForStatus (resp : Response) (url : String) : Option (Nat × String) :=
  if 400 ≤ resp.status then
    some (resp.status, aiohttpErrStr resp.status resp.reason url)
  else
    none

/-- parse_data from base.py, restricted to dict payloads: a dict is returned unchanged. -/
def parse_data (d : Dict) : Dict := d

/-- The idempotency-key header set by the send operations: present only when the
argument is truthy. -/
def headerOf (idempotency_key : Option String) : Option String :=
  if truthyStr idempotency_key then idempotency_key else none

/-- Sync body decoding used by attach, output, delete_invocation and the service proxy:
response.json() whenever the body text is nonempty (raising a JSON decode error on a
malformed body, with no fallback), and the empty dict for an empty body. -/
def syncDecodeBody (resp : Response) : Except PyError PyValue :=
  if resp.text == "" then .ok .emptyDict
  else if resp.jsonValid then .ok (.jsonOf resp.text)
  else .error (.jsonDecodeError "Expecting value")

/-- Async body decoding used by the async service proxy and delete_invocation: JSON when the
Content-Type indicates JSON, falling back to the raw text on a malformed body; raw text
otherwise. -/
def asyncDecodeBody (resp : Response) : PyValue :=
  if contentTypeIsJson resp.contentType then
    if resp.jsonValid then .jsonOf resp.text else .textOf resp.text
  else
    .textOf resp.text

/-- Async body decoding used by attach and output: like asyncDecodeBody, but on the
non-JSON path an empty body is returned as the empty dict. -/
def asyncDecodeBodyOrEmpty (resp : Response) : PyValue :=
  if contentTypeIsJson resp.contentType then
    if resp.jsonValid then .jsonOf resp.text else .textOf resp.text
  else
    if resp.text == "" then .emptyDict else .textOf resp.text

namespace RestateClient

/-- RestateClient.service_send (sync_client.py lines 60 to 94). Returns None when the
session is absent; builds the send URL with the optional delay suffix; POSTs the payload;
raise_for_status failures and connection errors are caught as RequestException and
re-raised as TerminalError carrying the original message. -/
def service_send (base service_name handler : String) (payload : Dict)
    (delay_seconds : Int) (idempotency_key : Option String)
    (session : Option Unit) (server : Request → ServerBehavior) : Outcome :=
  match session with
  | none => ([], .ok .pyNone)
  | some _ =>
    let url0 := base ++ "/" ++ service_name ++ "/" ++ handler ++ "/send"
    let url := if delay_seconds > 0 then url0 ++ "?delay=" ++ toString delay_seconds ++ "s" else url0
    let req : Request := { method := .post, url := url, body := some (parse_data payload),
                           idempotencyKey := headerOf idempotency_key }
    ([req],
      match server req with
      | .connError m => .error (.terminalError m)
      | .respond resp =>
        match requestsRaiseForStatus resp url with
        | some (_, m) => .error (.terminalError m)
        | none => .ok .pyNone)

/-- RestateClient.object_send (sync_client.py lines 96 to 133): like service_send with the
key segment between service name and handler. -/
def object_send (base service_name handler key : String) (payload : Dict)
    (delay_seconds : Int) (idempotency_key : Option String)
    (session : Option Unit) (server : Request → ServerBehavior) : Outcome :=
  match session with
  | none => ([], .ok .pyNone)
  | some _ =>
    let url0 := base ++ "/" ++ service_name ++ "/" ++ key ++ "/" ++ handler ++ "/send"
    let url := if delay_seconds > 0 then url0 ++ "?delay=" ++ toString delay_seconds ++ "s" else url0
    let req : Request := { method := .post, url := url, body := some (parse_data payload),
                           idempotencyKey := headerOf idempotency_key }
    ([req],
      match server req with
      | .connError m => .error (.terminalError m)
      | .respond resp =>
        match requestsRaiseForStatus resp url with
        | some (_, m) => .error (.terminalError m)
        | none => .ok .pyNone)

/-- RestateClient.generic_send (sync_client.py lines 135 to 150): dispatches on the
truthiness of the key. -/
def generic_send (base service_name handler : String) (payload : Dict)
    (key : Option String) (delay_seconds : Int) (idempotency_key : Option String)
    (session : Option Unit) (server : Request → ServerBehavior) : Outcome :=
  if truthyStr key then
    object_send base service_name handler (key.getD "") payload delay_seconds idempotency_key session server
  else
    service_send base service_name handler payload delay_seconds idempotency_key session server

/-- RestateClient.service_attach (sync_client.py lines 152 to 176). Returns None when the
session is absent; validates the arguments; GETs the attach URL; raise_for_status and
connection failures are logged and re-raised unchanged. -/
def service_attach (base service_name handler idempotency_key : String)
    (session : Option Unit) (server : Request → ServerBehavior) : Outcome :=
  match session with
  | none => ([], .ok .pyNone)
  | some _ =>
    if service_name == "" then ([], .error (.valueError "Service name is required"))
    else if handler == "" then ([], .error (.valueError "Handler is required"))
    else if idempotency_key == "" then ([], .error (.valueError "Idempotency key is required"))
    else
      let url := base ++ "/restate/invocation/" ++ service_name ++ "/" ++ handler ++ "/"
        ++ idempotency_key ++ "/attach"
      let req : Request := { method := .get, url := url }
      ([req],
        match server req with
        | .connError m => .error (.requestException m)
        | .respond resp =>
          match requestsRaiseForStatus resp url with
          | some (s, m) => .error (.httpError s m)
          | none => syncDecodeBody resp)

/-- RestateClient.object_attach (sync_client.py lines 178 to 204): like service_attach with
a key segment and a key validation. -/
def object_attach (base service_name handler key idempotency_key : String)
    (session : Option Unit) (server : Request → ServerBehavior) : Outcome :=
  match session with
  | none => ([], .ok .pyNone)
  | some _ =>
    if service_name == "" then ([], .error (.valueError "Service name is required"))
    else if handler == "" then ([], .error (.valueError "Handler is required"))
    else if key == "" then ([], .error (.valueError "Key is required"))
    else if idempotency_key == "" then ([], .error (.valueError "Idempotency key is required"))
    else
      let url := base ++ "/restate/invocation/" ++ service_name ++ "/" ++ key ++ "/" ++ handler
        ++ "/" ++ idempotency_key ++ "/attach"
      let req : Request := { method := .get, url := url }
      ([req],
        match server req with
        | .connError m => .error (.requestException m)
        | .respond resp =>
          match requestsRaiseForStatus resp url with
          | some (s, m) => .error (.httpError s m)
          | none => syncDecodeBody resp)

/-- RestateClient.generic_attach (sync_client.py lines 206 to 213). -/
def generic_attach (base service_name handler idempotency_key : String) (key : Option String)
    (session : Option Unit) (server : Request → ServerBehavior) : Outcome :=
  if truthyStr key then
    object_attach base service_name handler (key.getD "") idempotency_key session server
  else
    service_attach base service_name handler idempotency_key session server

/-- RestateClient.service_output (sync_client.py lines 215 to 238): like service_attach but
with no raise_for_status before decoding. -/
def service_output (base service_name handler idempotency_key : String)
    (session : Option Unit) (server : Request → ServerBehavior) : Outcome :=
  match session with
  | none => ([], .ok .pyNone)
  | some _ =>
    if service_name == "" then ([], .error (.valueError "Service name is required"))
    else if handler == "" then ([], .error (.valueError "Handler is required"))
    else if idempotency_key == "" then ([], .error (.valueError "Idempotency key is required"))
    else
      let url := base ++ "/restate/invocation/" ++ service_name ++ "/" ++ handler ++ "/"
        ++ idempotency_key ++ "/output"
      let req : Request := { method := .get, url := url }
      ([req],
        match server req with
        | .connError m => .error (.requestException m)
        | .respond resp => syncDecodeBody resp)

/-- RestateClient.object_output (sync_client.py lines 240 to 265). -/
def object_output (base service_name handler key idempotency_key : String)
    (session : Option Unit) (server : Request → ServerBehavior) : Outcome :=
  match session with
  | none => ([], .ok .pyNone)
  | some _ =>
    if service_name == "" then ([], .error (.valueError "Service name is required"))
    else if handler == "" then ([], .error (.valueError "Handler is required"))
    else if key == "" then ([], .error (.valueError "Key is required"))
    else if idempotency_key == "" then ([], .error (.valueError "Idempotency key is required"))
    else
      let url := base ++ "/restate/invocation/" ++ service_name ++ "/" ++ key ++ "/" ++ handler
        ++ "/" ++ idempotency_key ++ "/output"
      let req : Request := { method := .get, url := url }
      ([req],
        match server req with
        | .connError m => .error (.requestException m)
        | .respond resp => syncDecodeBody resp)

/-- RestateClient.generic_output (sync_client.py lines 267 to 274). -/
def generic_output (base service_name handler idempotency_key : String) (key : Option String)
    (session : Option Unit) (server : Request → ServerBehavior) : Outcome :=
  if truthyStr key then
    object_output base service_name handler (key.getD "") idempotency_key session server
  else
    service_output base service_name handler idempotency_key session server

/-- RestateClient.delete_invocation (sync_client.py lines 276 to 295). No absent-session
guard: with the session absent the attribute access on None raises AttributeError before
any request. Otherwise DELETEs the invocation URL; a 404 HTTPError is suppressed and None
returned; any other HTTPError or RequestException is logged and re-raised unchanged. -/
def delete_invocation (base invocation_id : String)
    (session : Option Unit) (server : Request → ServerBehavior) : Outcome :=
  match session with
  | none => ([], .error (.attributeError "NoneType object has no attribute delete"))
  | some _ =>
    let url := base ++ "/invocation/" ++ invocation_id
    let req : Request := { method := .delete, url := url }
    ([req],
      match server req with
      | .connError m => .error (.requestException m)
      | .respond resp =>
        match requestsRaiseForStatus resp url with
        | some (s, m) => if s == 404 then .ok .pyNone else .error (.httpError s m)
        | none => syncDecodeBody resp)

/-- The public invocation-control methods defined on the synchronous RestateClient, in
source order (sync_client.py). -/
def ops : List String :=
  ["service_send", "object_send", "generic_send",
   "service_attach", "object_attach", "generic_attach",
   "service_output", "object_output", "generic_output",
   "delete_invocation"]

end RestateClient

namespace RestateAsyncClient

/-- RestateAsyncClient.service_send (async_client.py lines 73 to 112). Recreates the async
session, builds the send URL with the optional delay suffix, POSTs; ClientError (including
raise_for_status failures and connection errors) is caught and re-raised as TerminalError
carrying the original message. -/
def service_send (base service_name handler : String) (payload : Dict)
    (delay_seconds : Int) (idempotency_key : Option String)
    (server : Request → ServerBehavior) : Outcome :=
  let url0 := base ++ "/" ++ service_name ++ "/" ++ handler ++ "/send"
  let url := if delay_seconds > 0 then url0 ++ "?delay=" ++ toString delay_seconds ++ "s" else url0
  let req : Request := { method := .post, url := url, body := some (parse_data payload),
                         idempotencyKey := headerOf idempotency_key }
  ([req],
    match server req with
    | .connError m => .error (.terminalError m)
    | .respond resp =>
      match aiohttpRaiseForStatus resp url with
      | some (_, m) => .error (.terminalError m)
      | none => .ok .pyNone)

/-- RestateAsyncClient.object_send (async_client.py lines 114 to 156). -/
def object_send (base service_name handler key : String) (payload : Dict)
    (delay_seconds : Int) (idempotency_key : Option String)
    (server : Request → ServerBehavior) : Outcome :=
  let url0 := base ++ "/" ++ service_name ++ "/" ++ key ++ "/" ++ handler ++ "/send"
  let url := if delay_seconds > 0 then url0 ++ "?delay=" ++ toString delay_seconds ++ "s" else url0
  let req : Request := { method := .post, url := url, body := some (parse_data payload),
                         idempotencyKey := headerOf idempotency_key }
  ([req],
    match server req with
    | .connError m => .error (.terminalError m)
    | .respond resp =>
      match aiohttpRaiseForStatus resp url with
      | some (_, m) => .error (.terminalError m)
      | none => .ok .pyNone)

/-- RestateAsyncClient.generic_send (async_client.py lines 158 to 173). -/
def generic_send (base service_name handler : String) (payload : Dict)
    (key : Option String) (delay_seconds : Int) (idempotency_key : Option String)
    (server : Request → ServerBehavior) : Outcome :=
  if truthyStr key then
    object_send base service_name handler (key.getD "") payload delay_seconds idempotency_key server
  else
    service_send base service_name handler payload delay_seconds idempotency_key server

/-- RestateAsyncClient.service_attach (async_client.py lines 175 to 211). Validates the
arguments (the session recreation before validation cannot fail in this model), GETs the
attach URL, raises for status, decodes with the async fallback; ClientError is re-raised
as TerminalError carrying the original message. -/
def service_attach (base service_name handler idempotency_key : String)
    (server : Request → ServerBehavior) : Outcome :=
  if service_name == "" then ([], .error (.valueError "Service name is required"))
  else if handler == "" then ([], .error (.valueError "Handler is required"))
  else if idempotency_key == "" then ([], .error (.valueError "Idempotency key is required"))
  else
    let url := base ++ "/restate/invocation/" ++ service_name ++ "/" ++ handler ++ "/"
      ++ idempotency_key ++ "/attach"
    let req : Request := { method := .get, url := url }
    ([req],
      match server req with
      | .connError m => .error (.terminalError m)
      | .respond resp =>
        match aiohttpRaiseForStatus resp url with
        | some (_, m) => .error (.terminalError m)
        | none => .ok (asyncDecodeBodyOrEmpty resp))

/-- RestateAsyncClient.object_attach (async_client.py lines 213 to 251). -/
def object_attach (base service_name handler key idempotency_key : String)
    (server : Request → ServerBehavior) : Outcome :=
  if service_name == "" then ([], .error (.valueError "Service name is required"))
  else if handler == "" then ([], .error (.valueError "Handler is required"))
  else if key == "" then ([], .error (.valueError "Key is required"))
  else if idempotency_key == "" then ([], .error (.valueError "Idempotency key is required"))
  else
    let url := base ++ "/restate/invocation/" ++ service_name ++ "/" ++ key ++ "/" ++ handler
      ++ "/" ++ idempotency_key ++ "/attach"
    let req : Request := { method := .get, url := url }
    ([req],
      match server req with
      | .connError m => .error (.terminalError m)
      | .respond resp =>
        match aiohttpRaiseForStatus resp url with
        | some (_, m) => .error (.terminalError m)
        | none => .ok (asyncDecodeBodyOrEmpty resp))

/-- RestateAsyncClient.generic_attach (async_client.py lines 253 to 260). -/
def generic_attach (base service_name handler idempotency_key : String) (key : Option String)
    (server : Request → ServerBehavior) : Outcome :=
  if truthyStr key then
    object_attach base service_name handler (key.getD "") idempotency_key server
  else
    service_attach base service_name handler idempotency_key server

/-- RestateAsyncClient.service_output (async_client.py lines 262 to 297): like
service_attach but with no raise_for_status before decoding. -/
def service_output (base service_name handler idempotency_key : String)
    (server : Request → ServerBehavior) : Outcome :=
  if service_name == "" then ([], .error (.valueError "Service name is required"))
  else if handler == "" then ([], .error (.valueError "Handler is required"))
  else if idempotency_key == "" then ([], .error (.valueError "Idempotency key is required"))
  else
    let url := base ++ "/restate/invocation/" ++ service_name ++ "/" ++ handler ++ "/"
      ++ idempotency_key ++ "/output"
    let req : Request := { method := .get, url := url }
    ([req],
      match server req with
      | .connError m => .error (.terminalError m)
      | .respond resp => .ok (asyncDecodeBodyOrEmpty resp))

/-- RestateAsyncClient.object_output (async_client.py lines 299 to 336). -/
def object_output (base service_name handler key idempotency_key : String)
    (server : Request → ServerBehavior) : Outcome :=
  if service_name == "" then ([], .error (.valueError "Service name is required"))
  else if handler == "" then ([], .error (.valueError "Handler is required"))
  else if key == "" then ([], .error (.valueError "Key is required"))
  else if idempotency_key == "" then ([], .error (.valueError "Idempotency key is required"))
  else
    let url := base ++ "/restate/invocation/" ++ service_name ++ "/" ++ key ++ "/" ++ handler
      ++ "/" ++ idempotency_key ++ "/output"
    let req : Request := { method := .get, url := url }
    ([req],
      match server req with
      | .connError m => .error (.terminalError m)
      | .respond resp => .ok (asyncDecodeBodyOrEmpty resp))

/-- RestateAsyncClient.generic_output (async_client.py lines 338 to 345). -/
def generic_output (base service_name handler idempotency_key : String) (key : Option String)
    (server : Request → ServerBehavior) : Outcome :=
  if truthyStr key then
    object_output base service_name handler (key.getD "") idempotency_key server
  else
    service_output base service_name handler idempotency_key server

/-- RestateAsyncClient.delete_invocation (async_client.py lines 347 to 375). DELETEs the
invocation URL; in the ClientError handler a 404 status is suppressed and None returned,
any other status becomes TerminalError carrying the original message; for a connection
error the handler reads e.status, an attribute aiohttp connection errors do not have, so
an AttributeError escapes. -/
def delete_invocation (base invocation_id : String)
    (server : Request → ServerBehavior) : Outcome :=
  let url := base ++ "/invocation/" ++ invocation_id
  let req : Request := { method := .delete, url := url }
  ([req],
    match server req with
    | .connError _ => .error (.attributeError "ClientConnectorError object has no attribute status")
    | .respond resp =>
      match aiohttpRaiseForStatus resp url with
      | some (s, m) => if s == 404 then .ok .pyNone else .error (.terminalError m)
      | none => .ok (asyncDecodeBody resp))

/-- The public invocation-control methods defined on the asynchronous RestateAsyncClient,
in source order (async_client.py). -/
def ops : List String :=
  ["service_send", "object_send", "generic_send",
   "service_attach", "object_attach", "generic_attach",
   "service_output", "object_output", "generic_output",
   "delete_invocation"]

end RestateAsyncClient

namespace RestateService

/-- The callable synthesized by RestateService.getattr for an unbound attribute name,
together with RestateService.request (sync_client.py lines 18 to 45). With the session
absent the helper returns None and the attribute access on it raises AttributeError. With
a truthy key the URL is base/key/name, otherwise base/name; a truthy payload is POSTed as
JSON, otherwise a GET is issued; a non-200 status raises RequestException; a nonempty body
is decoded with response.json() (no fallback), an empty body returns the empty dict. -/
def dynamicCall (base name : String) (data : Option Dict) (key : Option String)
    (session : Option Unit) (server : Request → ServerBehavior) : Outcome :=
  let url :=
    if truthyStr key then base ++ "/" ++ key.getD "" ++ "/" ++ name
    else base ++ "/" ++ name
  match session with
  | none => ([], .error (.attributeError "NoneType object has no attribute text"))
  | some _ =>
    let req : Request :=
      if truthyDict data then
        { method := .post, url := url, body := data }
      else
        { method := .get, url := url }
    ([req],
      match server req with
      | .connError m => .error (.requestException m)
      | .respond resp =>
        if resp.status != 200 then
          .error (.requestException ("Request failed: " ++ toString resp.status))
        else
          syncDecodeBody resp)

end RestateService

namespace RestateAsyncService

/-- The callable synthesized by RestateAsyncService.getattr together with
RestateAsyncService.request (async_client.py lines 19 to 55). The async session is
recreated before the call; URL and method are chosen as in the sync proxy; a non-200
status raises ClientError; the body is decoded as JSON when the Content-Type indicates
JSON, falling back to the raw text on a malformed body, and as raw text otherwise. -/
def dynamicCall (base name : String) (data : Option Dict) (key : Option String)
    (server : Request → ServerBehavior) : Outcome :=
  let url :=
    if truthyStr key then base ++ "/" ++ key.getD "" ++ "/" ++ name
    else base ++ "/" ++ name
  let req : Request :=
    if truthyDict data then
      { method := .post, url := url, body := data }
    else
      { method := .get, url := url }
  ([req],
    match server req with
    | .connError m => .error (.clientError m)
    | .respond resp =>
      if resp.status != 200 then
        .error (.clientError ("Request failed: " ++ toString resp.status))
      else
        .ok (asyncDecodeBody resp))

end RestateAsyncService

/-- A response with status 200 and a well-formed JSON body. -/
def resp200Json : Response :=
  { status := 200, text := "[1]", contentType := "application/json", jsonValid := true, reason := "OK" }

/-- A response with status 200, Content-Type application/json and a malformed JSON body. -/
def resp200BadJson : Response :=
  { status := 200, text := "not json", contentType := "application/json", jsonValid := false, reason := "OK" }

/-- A 404 response. -/
def resp404 : Response :=
  { status := 404, text := "", contentType := "text/plain", jsonValid := false, reason := "Not Found" }

/-- A 500 response. -/
def resp500 : Response :=
  { status := 500, text := "boom", contentType := "text/plain", jsonValid := false, reason := "Internal Server Error" }

/-- A server that answers every request with the given response. -/
def serverWith (r : Response) : Request → ServerBehavior := fun _ => .respond r

/-- A server on which every request fails at the connection level. -/
def serverConnFail (m : String) : Request → ServerBehavior := fun _ => .connError m

/-- Number of occurrences of the question-mark character in a string. -/
def qmarkCount (s : String) : Nat := s.toList.count '?'

/-- A call fails fast: no request is issued and a Python ValueError is raised. -/
def noRequestAndValidation (o : Outcome) : Prop := o.1 = [] ∧ isValidationError o.2 = true

/-- True when the outcome raised the key-validation ValueError. -/
def isKeyRequiredError : Except PyError PyValue → Bool
  | .error (.valueError m) => m == "Key is required"
  | _ => false

theorem strToList_append (s t : String) : (s ++ t).toList = s.toList ++ t.toList := by
  cases s; cases t; rfl

theorem strAppend_assoc (a b c : String) : a ++ b ++ c = a ++ (b ++ c) := by
  cases a; cases b; cases c
  simp [String.ext_iff, strToList_append]

theorem qmarkCount_append (s t : String) : qmarkCount (s ++ t) = qmarkCount s + qmarkCount t := by
  simp [qmarkCount, strToList_append, List.count_append]

theorem digitChar_ne_qmark (m : Nat) : Nat.digitChar m ≠ '?' := by
  rcases Nat.lt_or_ge m 16 with h | h
  · interval_cases m <;> decide
  · unfold Nat.digitChar
    repeat rw [if_neg (by omega)]
    decide

theorem toDigitsCore_no_qmark (fuel : Nat) : ∀ (n : Nat) (ds : List Char), '?' ∉ ds →
    '?' ∉ Nat.toDigitsCore 10 fuel n ds := by
  induction fuel with
  | zero => intro n ds h; simpa [Nat.toDigitsCore] using h
  | succ f ih =>
    intro n ds h
    have hd : '?' ∉ Nat.digitChar (n % 10) :: ds := by
      simp only [List.mem_cons, not_or]
      exact ⟨fun hc => digitChar_ne_qmark _ hc.symm, h⟩
    simp only [Nat.toDigitsCore]
    split
    · exact hd
    · exact ih _ _ hd

theorem natRepr_no_qmark (n : Nat) : '?' ∉ (Nat.repr n).toList :=
  toDigitsCore_no_qmark (n + 1) n [] (by simp)

/-- The decimal rendering of a positive delay contains no question mark. -/
theorem qmarkCount_toString_int (d : Int) (hd : 0 < d) : qmarkCount (toString d) = 0 := by
  cases d with
  | ofNat n =>
    have h : toString (Int.ofNat n) = Nat.repr n := rfl
    rw [h, qmarkCount, List.count_eq_zero]
    exact natRepr_no_qmark n
  | negSucc n => exact absurd hd (by exact of_decide_eq_false rfl)

theorem startsWithChars_append (l m : List Char) : startsWithChars l (l ++ m) = true := by
  induction l with
  | nil => rfl
  | cons a as ih => simp [startsWithChars, ih]

theorem hasSubChars_nil_needle (hay : List Char) : hasSubChars [] hay = true := by
  cases hay <;> simp [hasSubChars, startsWithChars, List.isEmpty]

theorem hasSubChars_here (needle post : List Char) :
    hasSubChars needle (needle ++ post) = true := by
  cases needle with
  | nil => exact hasSubChars_nil_needle post
  | cons a as => simp [hasSubChars, startsWithChars, startsWithChars_append]

theorem hasSubChars_append_left (l needle post : List Char) :
    hasSubChars needle (l ++ (needle ++ post)) = true := by
  induction l with
  | nil => simpa using hasSubChars_here needle post
  | cons c cs ih => simp [hasSubChars, ih]

/-- A string built around a middle segment contains that segment as a substring. -/
theorem strContainsSub_build (before mid post : String) :
    strContainsSub (before ++ mid ++ post) mid = true := by
  unfold strContainsSub
  rw [strToList_append, strToList_append, List.append_assoc]
  exact hasSubChars_append_left _ _ _

/-- A string that ends in a segment contains that segment as a substring. -/
theorem strContainsSub_right (before mid : String) :
    strContainsSub (before ++ mid) mid = true := by
  unfold strContainsSub
  rw [strToList_append]
  have h := hasSubChars_append_left before.toList mid.toList []
  simpa using h

theorem qmarkCount_slash : qmarkCount "/" = 0 := rfl

theorem qmarkCount_send_seg : qmarkCount "/send" = 0 := rfl

theorem qmarkCount_delay_seg : qmarkCount "?delay=" = 1 := rfl

theorem qmarkCount_s_seg : qmarkCount "s" = 0 := rfl

/-- C1: for every service_name and handler, service_send and generic_send with no key POST
to base/service_name/handler/send, and object_send and generic_send with a key POST to
base/service_name/key/handler/send, in both the synchronous and the asynchronous client
(key presence for the generic form is Python truthiness, so the key is nonempty). -/
theorem C1_send_urls (base service_name handler key : String) (payload : Dict)
    (ik : Option String) (server : Request → ServerBehavior) (hkey : key ≠ "") :
    (RestateClient.service_send base service_name handler payload 0 ik (some ()) server).1
      = [{ method := .post, url := base ++ "/" ++ service_name ++ "/" ++ handler ++ "/send",
           body := some payload, idempotencyKey := headerOf ik }] ∧
    (RestateClient.object_send base service_name handler key payload 0 ik (some ()) server).1
      = [{ method := .post,
           url := base ++ "/" ++ service_name ++ "/" ++ key ++ "/" ++ handler ++ "/send",
           body := some payload, idempotencyKey := headerOf ik }] ∧
    (RestateAsyncClient.service_send base service_name handler payload 0 ik server).1
      = [{ method := .post, url := base ++ "/" ++ service_name ++ "/" ++ handler ++ "/send",
           body := some payload, idempotencyKey := headerOf ik }] ∧
    (RestateAsyncClient.object_send base service_name handler key payload 0 ik server).1
      = [{ method := .post,
           url := base ++ "/" ++ service_name ++ "/" ++ key ++ "/" ++ handler ++ "/send",
           body := some payload, idempotencyKey := headerOf ik }] ∧
    RestateClient.generic_send base service_name handler payload none 0 ik (some ()) server
      = RestateClient.service_send base service_name handler payload 0 ik (some ()) server ∧
    RestateClient.generic_send base service_name handler payload (some key) 0 ik (some ()) server
      = RestateClient.object_send base service_name handler key payload 0 ik (some ()) server ∧
    RestateAsyncClient.generic_send base service_name handler payload none 0 ik server
      = RestateAsyncClient.service_send base service_name handler payload 0 ik server ∧
    RestateAsyncClient.generic_send base service_name handler payload (some key) 0 ik server
      = RestateAsyncClient.object_send base service_name handler key payload 0 ik server := by
  have ht : truthyStr (some key) = true := by simp [truthyStr, hkey]
  refine ⟨rfl, rfl, rfl, rfl, rfl, ?_, rfl, ?_⟩ <;>
    simp [RestateClient.generic_send, RestateAsyncClient.generic_send, ht]

/-- Witness for C1 at concrete inputs. -/
theorem C1_send_urls_witness :
    ("k" : String) ≠ "" ∧
    ((RestateClient.service_send "http://b" "svc" "h" [("a", "1")] 0 none (some ())
        (serverWith resp200Json)).1
      = [{ method := .post, url := "http://b" ++ "/" ++ "svc" ++ "/" ++ "h" ++ "/send",
           body := some [("a", "1")], idempotencyKey := headerOf none }] ∧
    (RestateClient.object_send "http://b" "svc" "h" "k" [("a", "1")] 0 none (some ())
        (serverWith resp200Json)).1
      = [{ method := .post,
           url := "http://b" ++ "/" ++ "svc" ++ "/" ++ "k" ++ "/" ++ "h" ++ "/send",
           body := some [("a", "1")], idempotencyKey := headerOf none }] ∧
    (RestateAsyncClient.service_send "http://b" "svc" "h" [("a", "1")] 0 none
        (serverWith resp200Json)).1
      = [{ method := .post, url := "http://b" ++ "/" ++ "svc" ++ "/" ++ "h" ++ "/send",
           body := some [("a", "1")], idempotencyKey := headerOf none }] ∧
    (RestateAsyncClient.object_send "http://b" "svc" "h" "k" [("a", "1")] 0 none
        (serverWith resp200Json)).1
      = [{ method := .post,
           url := "http://b" ++ "/" ++ "svc" ++ "/" ++ "k" ++ "/" ++ "h" ++ "/send",
           body := some [("a", "1")], idempotencyKey := headerOf none }] ∧
    RestateClient.generic_send "http://b" "svc" "h" [("a", "1")] none 0 none (some ())
        (serverWith resp200Json)
      = RestateClient.service_send "http://b" "svc" "h" [("a", "1")] 0 none (some ())
        (serverWith resp200Json) ∧
    RestateClient.generic_send "http://b" "svc" "h" [("a", "1")] (some "k") 0 none (some ())
        (serverWith resp200Json)
      = RestateClient.object_send "http://b" "svc" "h" "k" [("a", "1")] 0 none (some ())
        (serverWith resp200Json) ∧
    RestateAsyncClient.generic_send "http://b" "svc" "h" [("a", "1")] none 0 none
        (serverWith resp200Json)
      = RestateAsyncClient.service_send "http://b" "svc" "h" [("a", "1")] 0 none
        (serverWith resp200Json) ∧
    RestateAsyncClient.generic_send "http://b" "svc" "h" [("a", "1")] (some "k") 0 none
        (serverWith resp200Json)
      = RestateAsyncClient.object_send "http://b" "svc" "h" "k" [("a", "1")] 0 none
        (serverWith resp200Json)) :=
  ⟨by decide,
   C1_send_urls "http://b" "svc" "h" "k" [("a", "1")] none (serverWith resp200Json) (by decide)⟩

/-- C2: every send operation appends the delay query suffix exactly once when
delay_seconds is positive, and no delay parameter appears when delay_seconds is zero
(exactly once and never are stated by counting question marks, given that no input
component contains one). -/
theorem C2_delay_suffix (base service_name handler key : String) (payload : Dict)
    (ik : Option String) (server : Request → ServerBehavior) (d : Int)
    (hb : qmarkCount base = 0) (hs : qmarkCount service_name = 0)
    (hh : qmarkCount handler = 0) (hk : qmarkCount key = 0) (hkey : key ≠ "") :
    (d > 0 →
      issuedUrls (RestateClient.service_send base service_name handler payload d ik (some ()) server)
        = [base ++ "/" ++ service_name ++ "/" ++ handler ++ "/send" ++ "?delay=" ++ toString d ++ "s"] ∧
      qmarkCount (base ++ "/" ++ service_name ++ "/" ++ handler ++ "/send" ++ "?delay=" ++ toString d ++ "s") = 1 ∧
      issuedUrls (RestateClient.object_send base service_name handler key payload d ik (some ()) server)
        = [base ++ "/" ++ service_name ++ "/" ++ key ++ "/" ++ handler ++ "/send" ++ "?delay=" ++ toString d ++ "s"] ∧
      qmarkCount (base ++ "/" ++ service_name ++ "/" ++ key ++ "/" ++ handler ++ "/send" ++ "?delay=" ++ toString d ++ "s") = 1 ∧
      issuedUrls (RestateAsyncClient.service_send base service_name handler payload d ik server)
        = [base ++ "/" ++ service_name ++ "/" ++ handler ++ "/send" ++ "?delay=" ++ toString d ++ "s"] ∧
      issuedUrls (RestateAsyncClient.object_send base service_name handler key payload d ik server)
        = [base ++ "/" ++ service_name ++ "/" ++ key ++ "/" ++ handler ++ "/send" ++ "?delay=" ++ toString d ++ "s"] ∧
      issuedUrls (RestateClient.generic_send base service_name handler payload (some key) d ik (some ()) server)
        = [base ++ "/" ++ service_name ++ "/" ++ key ++ "/" ++ handler ++ "/send" ++ "?delay=" ++ toString d ++ "s"] ∧
      issuedUrls (RestateAsyncClient.generic_send base service_name handler payload none d ik server)
        = [base ++ "/" ++ service_name ++ "/" ++ handler ++ "/send" ++ "?delay=" ++ toString d ++ "s"]) ∧
    (d = 0 →
      issuedUrls (RestateClient.service_send base service_name handler payload d ik (some ()) server)
        = [base ++ "/" ++ service_name ++ "/" ++ handler ++ "/send"] ∧
      qmarkCount (base ++ "/" ++ service_name ++ "/" ++ handler ++ "/send") = 0 ∧
      issuedUrls (RestateClient.object_send base service_name handler key payload d ik (some ()) server)
        = [base ++ "/" ++ service_name ++ "/" ++ key ++ "/" ++ handler ++ "/send"] ∧
      qmarkCount (base ++ "/" ++ service_name ++ "/" ++ key ++ "/" ++ handler ++ "/send") = 0 ∧
      issuedUrls (RestateAsyncClient.service_send base service_name handler payload d ik server)
        = [base ++ "/" ++ service_name ++ "/" ++ handler ++ "/send"] ∧
      issuedUrls (RestateAsyncClient.object_send base service_name handler key payload d ik server)
        = [base ++ "/" ++ service_name ++ "/" ++ key ++ "/" ++ handler ++ "/send"] ∧
      issuedUrls (RestateClient.generic_send base service_name handler payload (some key) d ik (some ()) server)
        = [base ++ "/" ++ service_name ++ "/" ++ key ++ "/" ++ handler ++ "/send"] ∧
      issuedUrls (RestateAsyncClient.generic_send base service_name handler payload none d ik server)
        = [base ++ "/" ++ service_name ++ "/" ++ handler ++ "/send"]) := by
  have ht : truthyStr (some key) = true := by simp [truthyStr, hkey]
  constructor
  · intro hd
    have hq : qmarkCount (toString d) = 0 := qmarkCount_toString_int d hd
    refine ⟨?_, ?_, ?_, ?_, ?_, ?_, ?_, ?_⟩ <;>
      simp [RestateClient.service_send, RestateClient.object_send, RestateClient.generic_send,
        RestateAsyncClient.service_send, RestateAsyncClient.object_send,
        RestateAsyncClient.generic_send, issuedUrls, hd, ht, truthyStr, hkey,
        qmarkCount_append, hb, hs, hh, hk, hq,
        qmarkCount_slash, qmarkCount_send_seg, qmarkCount_delay_seg, qmarkCount_s_seg]
  · intro hd
    subst hd
    refine ⟨?_, ?_, ?_, ?_, ?_, ?_, ?_, ?_⟩ <;>
      simp [RestateClient.service_send, RestateClient.object_send, RestateClient.generic_send,
        RestateAsyncClient.service_send, RestateAsyncClient.object_send,
        RestateAsyncClient.generic_send, issuedUrls, ht, truthyStr, hkey,
        qmarkCount_append, hb, hs, hh, hk,
        qmarkCount_slash, qmarkCount_send_seg]

theorem sync_service_attach_validation (base svc h ik : String) (server : Request → ServerBehavior)
    (hempty : svc = "" ∨ h = "" ∨ ik = "") :
    noRequestAndValidation (RestateClient.service_attach base svc h ik (some ()) server) := by
  unfold noRequestAndValidation RestateClient.service_attach
  rcases hempty with he | he | he <;> subst he <;> (repeat' split) <;>
    simp_all [isValidationError]

theorem sync_object_attach_validation (base svc h key ik : String) (server : Request → ServerBehavior)
    (hempty : svc = "" ∨ h = "" ∨ key = "" ∨ ik = "") :
    noRequestAndValidation (RestateClient.object_attach base svc h key ik (some ()) server) := by
  unfold noRequestAndValidation RestateClient.object_attach
  rcases hempty with he | he | he | he <;> subst he <;> (repeat' split) <;>
    simp_all [isValidationError]

theorem sync_service_output_validation (base svc h ik : String) (server : Request → ServerBehavior)
    (hempty : svc = "" ∨ h = "" ∨ ik = "") :
    noRequestAndValidation (RestateClient.service_output base svc h ik (some ()) server) := by
  unfold noRequestAndValidation RestateClient.service_output
  rcases hempty with he | he | he <;> subst he <;> (repeat' split) <;>
    simp_all [isValidationError]

theorem sync_object_output_validation (base svc h key ik : String) (server : Request → ServerBehavior)
    (hempty : svc = "" ∨ h = "" ∨ key = "" ∨ ik = "") :
    noRequestAndValidation (RestateClient.object_output base svc h key ik (some ()) server) := by
  unfold noRequestAndValidation RestateClient.object_output
  rcases hempty with he | he | he | he <;> subst he <;> (repeat' split) <;>
    simp_all [isValidationError]

theorem async_service_attach_validation (base svc h ik : String) (server : Request → ServerBehavior)
    (hempty : svc = "" ∨ h = "" ∨ ik = "") :
    noRequestAndValidation (RestateAsyncClient.service_attach base svc h ik server) := by
  unfold noRequestAndValidation RestateAsyncClient.service_attach
  rcases hempty with he | he | he <;> subst he <;> (repeat' split) <;>
    simp_all [isValidationError]

theorem async_object_attach_validation (base svc h key ik : String) (server : Request → ServerBehavior)
    (hempty : svc = "" ∨ h = "" ∨ key = "" ∨ ik = "") :
    noRequestAndValidation (RestateAsyncClient.object_attach base svc h key ik server) := by
  unfold noRequestAndValidation RestateAsyncClient.object_attach
  rcases hempty with he | he | he | he <;> subst he <;> (repeat' split) <;>
    simp_all [isValidationError]

theorem async_service_output_validation (base svc h ik : String) (server : Request → ServerBehavior)
    (hempty : svc = "" ∨ h = "" ∨ ik = "") :
    noRequestAndValidation (RestateAsyncClient.service_output base svc h ik server) := by
  unfold noRequestAndValidation RestateAsyncClient.service_output
  rcases hempty with he | he | he <;> subst he <;> (repeat' split) <;>
    simp_all [isValidationError]

theorem async_object_output_validation (base svc h key ik : String) (server : Request → ServerBehavior)
    (hempty : svc = "" ∨ h = "" ∨ key = "" ∨ ik = "") :
    noRequestAndValidation (RestateAsyncClient.object_output base svc h key ik server) := by
  unfold noRequestAndValidation RestateAsyncClient.object_output
  rcases hempty with he | he | he | he <;> subst he <;> (repeat' split) <;>
    simp_all [isValidationError]

/-- Witness for C2 at concrete inputs: delay 10 appends the suffix once, delay 0 leaves
the URL without any delay parameter. -/
theorem C2_delay_suffix_witness :
    issuedUrls (RestateClient.service_send "http://b" "svc" "h" [("a", "1")] 10 none (some ())
        (serverWith resp200Json)) = ["http://b/svc/h/send?delay=10s"] ∧
    qmarkCount "http://b/svc/h/send?delay=10s" = 1 ∧
    issuedUrls (RestateClient.service_send "http://b" "svc" "h" [("a", "1")] 0 none (some ())
        (serverWith resp200Json)) = ["http://b/svc/h/send"] ∧
    qmarkCount "http://b/svc/h/send" = 0 := by
  have h10 := (C2_delay_suffix "http://b" "svc" "h" "k" [("a", "1")] none (serverWith resp200Json)
    10 rfl rfl rfl rfl (by decide)).1 (by decide)
  have h0 := (C2_delay_suffix "http://b" "svc" "h" "k" [("a", "1")] none (serverWith resp200Json)
    0 rfl rfl rfl rfl (by decide)).2 rfl
  exact ⟨h10.1, h10.2.1, h0.1, h0.2.1⟩

/-- C3 counterexample: the synchronous service_attach, called with an empty service name
while the session is absent (the test-harness state base.py sets up), returns None without
raising any input-validation error. -/
theorem C3_counterexample :
    RestateClient.service_attach "http://b" "" "h" "ik" none (serverWith resp200Json)
      = ([], .ok .pyNone) ∧
    isValidationError
      (RestateClient.service_attach "http://b" "" "h" "ik" none (serverWith resp200Json)).2
      = false :=
  ⟨rfl, rfl⟩

/-- C3 amended: attach and output with a missing required argument raise a ValueError and
issue no request in all async forms and in all sync forms provided the session is present;
with the session absent the sync forms return None without raising (and still issue no
request). Object variants also validate the key. -/
theorem C3_validation_amended (base svc h ik : String) (gk : Option String)
    (server : Request → ServerBehavior) :
    (svc = "" ∨ h = "" ∨ ik = "" →
      noRequestAndValidation (RestateAsyncClient.service_attach base svc h ik server) ∧
      noRequestAndValidation (RestateAsyncClient.generic_attach base svc h ik gk server) ∧
      noRequestAndValidation (RestateAsyncClient.service_output base svc h ik server) ∧
      noRequestAndValidation (RestateAsyncClient.generic_output base svc h ik gk server) ∧
      noRequestAndValidation (RestateClient.service_attach base svc h ik (some ()) server) ∧
      noRequestAndValidation (RestateClient.generic_attach base svc h ik gk (some ()) server) ∧
      noRequestAndValidation (RestateClient.service_output base svc h ik (some ()) server) ∧
      noRequestAndValidation (RestateClient.generic_output base svc h ik gk (some ()) server) ∧
      RestateClient.service_attach base svc h ik none server = ([], .ok .pyNone) ∧
      RestateClient.generic_attach base svc h ik gk none server = ([], .ok .pyNone) ∧
      RestateClient.service_output base svc h ik none server = ([], .ok .pyNone) ∧
      RestateClient.generic_output base svc h ik gk none server = ([], .ok .pyNone)) ∧
    (∀ key : String, key = "" ∨ svc = "" ∨ h = "" ∨ ik = "" →
      noRequestAndValidation (RestateAsyncClient.object_attach base svc h key ik server) ∧
      noRequestAndValidation (RestateAsyncClient.object_output base svc h key ik server) ∧
      noRequestAndValidation (RestateClient.object_attach base svc h key ik (some ()) server) ∧
      noRequestAndValidation (RestateClient.object_output base svc h key ik (some ()) server) ∧
      RestateClient.object_attach base svc h key ik none server = ([], .ok .pyNone) ∧
      RestateClient.object_output base svc h key ik none server = ([], .ok .pyNone)) := by
  constructor
  · intro hempty
    have hobj : ∀ k, svc = "" ∨ h = "" ∨ k = "" ∨ ik = "" := by tauto
    refine ⟨async_service_attach_validation base svc h ik server hempty, ?_,
      async_service_output_validation base svc h ik server hempty, ?_,
      sync_service_attach_validation base svc h ik server hempty, ?_,
      sync_service_output_validation base svc h ik server hempty, ?_,
      rfl, ?_, rfl, ?_⟩
    · unfold RestateAsyncClient.generic_attach; split
      · exact async_object_attach_validation base svc h _ ik server (hobj _)
      · exact async_service_attach_validation base svc h ik server hempty
    · unfold RestateAsyncClient.generic_output; split
      · exact async_object_output_validation base svc h _ ik server (hobj _)
      · exact async_service_output_validation base svc h ik server hempty
    · unfold RestateClient.generic_attach; split
      · exact sync_object_attach_validation base svc h _ ik server (hobj _)
      · exact sync_service_attach_validation base svc h ik server hempty
    · unfold RestateClient.generic_output; split
      · exact sync_object_output_validation base svc h _ ik server (hobj _)
      · exact sync_service_output_validation base svc h ik server hempty
    · unfold RestateClient.generic_attach; split <;> rfl
    · unfold RestateClient.generic_output; split <;> rfl
  · intro key hempty
    have hperm : svc = "" ∨ h = "" ∨ key = "" ∨ ik = "" := by tauto
    exact ⟨async_object_attach_validation base svc h key ik server hperm,
      async_object_output_validation base svc h key ik server hperm,
      sync_object_attach_validation base svc h key ik server hperm,
      sync_object_output_validation base svc h key ik server hperm, rfl, rfl⟩

/-- Witness for C3 amended at concrete inputs: empty handler. -/
theorem C3_validation_amended_witness :
    noRequestAndValidation
      (RestateAsyncClient.service_attach "http://b" "svc" "" "ik" (serverWith resp200Json)) ∧
    noRequestAndValidation
      (RestateClient.object_attach "http://b" "svc" "h" "" "ik" (some ()) (serverWith resp200Json)) := by
  have h := C3_validation_amended "http://b" "svc" "" "ik" none (serverWith resp200Json)
  have h2 := C3_validation_amended "http://b" "svc" "h" "ik" none (serverWith resp200Json)
  exact ⟨(h.1 (by simp)).1, ((h2.2 "" (by simp)).2.2).1⟩

/-- C4: delete_invocation against a 404 response returns None and raises nothing, in both
the synchronous and the asynchronous client. -/
theorem C4_delete_404 (base invocation_id : String) (resp : Response)
    (h404 : resp.status = 404) :
    (RestateClient.delete_invocation base invocation_id (some ()) (serverWith resp)).2
      = .ok .pyNone ∧
    (RestateAsyncClient.delete_invocation base invocation_id (serverWith resp)).2
      = .ok .pyNone := by
  constructor <;>
    simp [RestateClient.delete_invocation, RestateAsyncClient.delete_invocation, serverWith,
      requestsRaiseForStatus, aiohttpRaiseForStatus, h404]

/-- Witness for C4 at concrete inputs. -/
theorem C4_delete_404_witness :
    resp404.status = 404 ∧
    ((RestateClient.delete_invocation "http://b" "inv1" (some ()) (serverWith resp404)).2
        = .ok .pyNone ∧
     (RestateAsyncClient.delete_invocation "http://b" "inv1" (serverWith resp404)).2
        = .ok .pyNone) :=
  ⟨rfl, C4_delete_404 "http://b" "inv1" resp404 rfl⟩

/-- C5 counterexample: against a 500 response the synchronous delete_invocation re-raises
the underlying HTTPError unchanged; it does not raise a terminal failure. -/
theorem C5_counterexample :
    raisesError
      (RestateClient.delete_invocation "http://b" "inv1" (some ()) (serverWith resp500)).2
      = true ∧
    isTerminalFailure
      (RestateClient.delete_invocation "http://b" "inv1" (some ()) (serverWith resp500)).2
      = false :=
  ⟨rfl, rfl⟩

/-- C5 amended: on a non-404 HTTP failure the asynchronous delete_invocation raises a
TerminalError whose message includes the invocation id (via the URL); the synchronous
delete_invocation instead re-raises the HTTPError unchanged (whose message also embeds the
URL and with it the invocation id) and is never a terminal failure, and on a connection
error it re-raises the original RequestException with the transport message. -/
theorem C5_delete_failures_amended (base invocation_id : String) (resp : Response) (m : String)
    (hge : 400 ≤ resp.status) (hne : resp.status ≠ 404) (hlt : resp.status < 600) :
    (∃ msg, (RestateAsyncClient.delete_invocation base invocation_id (serverWith resp)).2
        = .error (.terminalError msg) ∧ strContainsSub msg invocation_id = true) ∧
    (∃ s msg, (RestateClient.delete_invocation base invocation_id (some ()) (serverWith resp)).2
        = .error (.httpError s msg) ∧ strContainsSub msg invocation_id = true) ∧
    isTerminalFailure
      (RestateClient.delete_invocation base invocation_id (some ()) (serverWith resp)).2 = false ∧
    (RestateClient.delete_invocation base invocation_id (some ()) (serverConnFail m)).2
      = .error (.requestException m) := by
  have hb404 : (resp.status == 404) = false := by simp [hne]
  have hsub : ∀ pre : String,
      strContainsSub (pre ++ (base ++ "/invocation/" ++ invocation_id)) invocation_id = true := by
    intro pre
    rw [← strAppend_assoc]
    exact strContainsSub_right _ _
  refine ⟨?_, ?_, ?_, ?_⟩
  · refine ⟨aiohttpErrStr resp.status resp.reason (base ++ "/invocation/" ++ invocation_id), ?_, ?_⟩
    · simp [RestateAsyncClient.delete_invocation, serverWith, aiohttpRaiseForStatus, hge, hb404]
    · unfold aiohttpErrStr
      exact hsub _
  · by_cases hc : resp.status < 500
    · refine ⟨resp.status, toString resp.status ++ " Client Error: " ++ resp.reason
        ++ " for url: " ++ (base ++ "/invocation/" ++ invocation_id), ?_, hsub _⟩
      simp [RestateClient.delete_invocation, serverWith, requestsRaiseForStatus, hge, hc, hb404]
    · refine ⟨resp.status, toString resp.status ++ " Server Error: " ++ resp.reason
        ++ " for url: " ++ (base ++ "/invocation/" ++ invocation_id), ?_, hsub _⟩
      have hge5 : 500 ≤ resp.status := by omega
      simp [RestateClient.delete_invocation, serverWith, requestsRaiseForStatus, hge5, hlt, hc, hb404]
  · by_cases hc : resp.status < 500
    · simp [RestateClient.delete_invocation, serverWith, requestsRaiseForStatus, hge, hc, hb404,
        isTerminalFailure]
    · have hge5 : 500 ≤ resp.status := by omega
      simp [RestateClient.delete_invocation, serverWith, requestsRaiseForStatus, hge5, hlt, hc,
        hb404, isTerminalFailure]
  · simp [RestateClient.delete_invocation, serverConnFail]

/-- Witness for C5 amended at concrete inputs. -/
theorem C5_delete_failures_amended_witness :
    400 ≤ resp500.status ∧ resp500.status ≠ 404 ∧ resp500.status < 600 ∧
    ((∃ msg, (RestateAsyncClient.delete_invocation "http://b" "inv1" (serverWith resp500)).2
        = .error (.terminalError msg) ∧ strContainsSub msg "inv1" = true) ∧
    (∃ s msg, (RestateClient.delete_invocation "http://b" "inv1" (some ()) (serverWith resp500)).2
        = .error (.httpError s msg) ∧ strContainsSub msg "inv1" = true) ∧
    isTerminalFailure
      (RestateClient.delete_invocation "http://b" "inv1" (some ()) (serverWith resp500)).2 = false ∧
    (RestateClient.delete_invocation "http://b" "inv1" (some ()) (serverConnFail "refused")).2
      = .error (.requestException "refused")) :=
  ⟨by decide, by decide, by decide,
   C5_delete_failures_amended "http://b" "inv1" resp500 "refused" (by decide) (by decide) (by decide)⟩

/-- C6 counterexample: against a 200 response with Content-Type application/json and a
malformed JSON body, the synchronous service proxy raises the JSON decode error instead of
returning the raw body text. -/
theorem C6_counterexample :
    (RestateService.dynamicCall "http://b/svc" "h" (some [("a", "1")]) none (some ())
        (serverWith resp200BadJson)).2 = .error (.jsonDecodeError "Expecting value") ∧
    raisesError
      (RestateService.dynamicCall "http://b/svc" "h" (some [("a", "1")]) none (some ())
        (serverWith resp200BadJson)).2 = true :=
  ⟨rfl, rfl⟩

/-- C6 amended: with a JSON content type and a malformed body, the asynchronous proxy
falls back to returning the raw body text; the synchronous proxy instead calls
response.json() on any nonempty body, regardless of content type, and raises the decode
error. -/
theorem C6_json_fallback_amended (base name : String) (data : Option Dict) (key : Option String)
    (resp : Response) (hct : contentTypeIsJson resp.contentType = true)
    (hbad : resp.jsonValid = false) (h200 : resp.status = 200) (hne : resp.text ≠ "") :
    (RestateAsyncService.dynamicCall base name data key (serverWith resp)).2
      = .ok (.textOf resp.text) ∧
    asyncDecodeBody resp = .textOf resp.text ∧
    asyncDecodeBodyOrEmpty resp = .textOf resp.text ∧
    (RestateService.dynamicCall base name data key (some ()) (serverWith resp)).2
      = .error (.jsonDecodeError "Expecting value") := by
  refine ⟨?_, ?_, ?_, ?_⟩ <;>
    simp [RestateAsyncService.dynamicCall, RestateService.dynamicCall, serverWith,
      asyncDecodeBody, asyncDecodeBodyOrEmpty, syncDecodeBody, hct, hbad, h200, hne]

/-- Witness for C6 amended at concrete inputs. -/
theorem C6_json_fallback_amended_witness :
    contentTypeIsJson resp200BadJson.contentType = true ∧
    resp200BadJson.jsonValid = false ∧
    resp200BadJson.status = 200 ∧
    resp200BadJson.text ≠ "" ∧
    ((RestateAsyncService.dynamicCall "http://b/svc" "h" none none (serverWith resp200BadJson)).2
      = .ok (.textOf resp200BadJson.text) ∧
    asyncDecodeBody resp200BadJson = .textOf resp200BadJson.text ∧
    asyncDecodeBodyOrEmpty resp200BadJson = .textOf resp200BadJson.text ∧
    (RestateService.dynamicCall "http://b/svc" "h" none none (some ()) (serverWith resp200BadJson)).2
      = .error (.jsonDecodeError "Expecting value")) :=
  ⟨by decide, by decide, by decide, by decide,
   C6_json_fallback_amended "http://b/svc" "h" none none resp200BadJson
     (by decide) (by decide) (by decide) (by decide)⟩

/-- C7 counterexample: delete exists in neither client as a generic, service or object
form; the only delete operation either client defines is delete_invocation. -/
theorem C7_counterexample :
    RestateClient.ops.contains "generic_delete" = false ∧
    RestateClient.ops.contains "service_delete" = false ∧
    RestateClient.ops.contains "object_delete" = false ∧
    RestateAsyncClient.ops.contains "generic_delete" = false ∧
    RestateAsyncClient.ops.contains "service_delete" = false ∧
    RestateAsyncClient.ops.contains "object_delete" = false ∧
    RestateClient.ops.contains "delete_invocation" = true ∧
    RestateAsyncClient.ops.contains "delete_invocation" = true := by
  decide

/-- C7 amended: send, attach and output each exist in a generic form that dispatches to
the object form when the key argument is truthy and to the service form otherwise,
uniformly in both clients; delete exists only as delete_invocation, with no generic,
service or object form and no key-based dispatch. -/
theorem C7_generic_dispatch_amended (base svc h ik : String) (p : Dict) (d : Int)
    (oik : Option String) (key : Option String) (session : Option Unit)
    (server : Request → ServerBehavior) :
    RestateClient.generic_send base svc h p key d oik session server
      = (if truthyStr key then
          RestateClient.object_send base svc h (key.getD "") p d oik session server
         else RestateClient.service_send base svc h p d oik session server) ∧
    RestateClient.generic_attach base svc h ik key session server
      = (if truthyStr key then
          RestateClient.object_attach base svc h (key.getD "") ik session server
         else RestateClient.service_attach base svc h ik session server) ∧
    RestateClient.generic_output base svc h ik key session server
      = (if truthyStr key then
          RestateClient.object_output base svc h (key.getD "") ik session server
         else RestateClient.service_output base svc h ik session server) ∧
    RestateAsyncClient.generic_send base svc h p key d oik server
      = (if truthyStr key then
          RestateAsyncClient.object_send base svc h (key.getD "") p d oik server
         else RestateAsyncClient.service_send base svc h p d oik server) ∧
    RestateAsyncClient.generic_attach base svc h ik key server
      = (if truthyStr key then
          RestateAsyncClient.object_attach base svc h (key.getD "") ik server
         else RestateAsyncClient.service_attach base svc h ik server) ∧
    RestateAsyncClient.generic_output base svc h ik key server
      = (if truthyStr key then
          RestateAsyncClient.object_output base svc h (key.getD "") ik server
         else RestateAsyncClient.service_output base svc h ik server) ∧
    RestateClient.ops.contains "generic_send" = true ∧
    RestateClient.ops.contains "generic_attach" = true ∧
    RestateClient.ops.contains "generic_output" = true ∧
    RestateAsyncClient.ops.contains "generic_send" = true ∧
    RestateAsyncClient.ops.contains "generic_attach" = true ∧
    RestateAsyncClient.ops.contains "generic_output" = true ∧
    RestateClient.ops.contains "generic_delete" = false ∧
    RestateAsyncClient.ops.contains "generic_delete" = false ∧
    RestateClient.ops.contains "delete_invocation" = true ∧
    RestateAsyncClient.ops.contains "delete_invocation" = true := by
  refine ⟨rfl, rfl, rfl, rfl, rfl, rfl, ?_⟩
  decide

/-- C8 counterexample: with an explicitly passed empty key the synthesized handler targets
base/name (the key segment is dropped), not base/key/name, which with the empty key would
be base//name. -/
theorem C8_counterexample :
    issuedUrls (RestateService.dynamicCall "http://b/svc" "h" none (some "") (some ())
        (serverWith resp200Json)) = ["http://b/svc/h"] ∧
    (("http://b/svc/h" : String) == "http://b/svc//h") = false := by
  refine ⟨?_, by decide⟩
  rfl

/-- C8 amended: the synthesized handler targets base/name when the key is absent or empty
and base/key/name when a nonempty key is passed, and performs a POST when a truthy (that
is, nonempty) payload is given and a GET otherwise, in both proxies. -/
theorem C8_dynamic_dispatch_amended (base name k : String) (data : Option Dict)
    (key : Option String) (server : Request → ServerBehavior) (hk : k ≠ "") :
    issuedUrls (RestateService.dynamicCall base name data (some k) (some ()) server)
      = [base ++ "/" ++ k ++ "/" ++ name] ∧
    issuedUrls (RestateService.dynamicCall base name data none (some ()) server)
      = [base ++ "/" ++ name] ∧
    issuedUrls (RestateService.dynamicCall base name data (some "") (some ()) server)
      = [base ++ "/" ++ name] ∧
    issuedUrls (RestateAsyncService.dynamicCall base name data (some k) server)
      = [base ++ "/" ++ k ++ "/" ++ name] ∧
    issuedUrls (RestateAsyncService.dynamicCall base name data none server)
      = [base ++ "/" ++ name] ∧
    issuedUrls (RestateAsyncService.dynamicCall base name data (some "") server)
      = [base ++ "/" ++ name] ∧
    (truthyDict data = true →
      issuedMethods (RestateService.dynamicCall base name data key (some ()) server) = [.post] ∧
      issuedMethods (RestateAsyncService.dynamicCall base name data key server) = [.post]) ∧
    (truthyDict data = false →
      issuedMethods (RestateService.dynamicCall base name data key (some ()) server) = [.get] ∧
      issuedMethods (RestateAsyncService.dynamicCall base name data key server) = [.get]) := by
  refine ⟨?_, ?_, ?_, ?_, ?_, ?_, ?_, ?_⟩
  all_goals
    first
    | (intro hdata
       constructor <;>
         simp [RestateService.dynamicCall, RestateAsyncService.dynamicCall, issuedUrls,
           issuedMethods, truthyStr, hk, hdata])
    | (simp [RestateService.dynamicCall, RestateAsyncService.dynamicCall, issuedUrls,
         issuedMethods, truthyStr, hk]
       split <;> rfl)

/-- Witness for C8 amended at concrete inputs. -/
theorem C8_dynamic_dispatch_amended_witness :
    ("k" : String) ≠ "" ∧
    (issuedUrls (RestateService.dynamicCall "http://b/svc" "h" (some [("a", "1")]) (some "k")
        (some ()) (serverWith resp200Json))
      = ["http://b/svc" ++ "/" ++ "k" ++ "/" ++ "h"] ∧
    issuedUrls (RestateService.dynamicCall "http://b/svc" "h" (some [("a", "1")]) none (some ())
        (serverWith resp200Json))
      = ["http://b/svc" ++ "/" ++ "h"] ∧
    issuedUrls (RestateService.dynamicCall "http://b/svc" "h" (some [("a", "1")]) (some "")
        (some ()) (serverWith resp200Json))
      = ["http://b/svc" ++ "/" ++ "h"] ∧
    issuedUrls (RestateAsyncService.dynamicCall "http://b/svc" "h" (some [("a", "1")]) (some "k")
        (serverWith resp200Json))
      = ["http://b/svc" ++ "/" ++ "k" ++ "/" ++ "h"] ∧
    issuedUrls (RestateAsyncService.dynamicCall "http://b/svc" "h" (some [("a", "1")]) none
        (serverWith resp200Json))
      = ["http://b/svc" ++ "/" ++ "h"] ∧
    issuedUrls (RestateAsyncService.dynamicCall "http://b/svc" "h" (some [("a", "1")]) (some "")
        (serverWith resp200Json))
      = ["http://b/svc" ++ "/" ++ "h"] ∧
    (truthyDict (some [("a", "1")]) = true →
      issuedMethods (RestateService.dynamicCall "http://b/svc" "h" (some [("a", "1")]) none
        (some ()) (serverWith resp200Json)) = [.post] ∧
      issuedMethods (RestateAsyncService.dynamicCall "http://b/svc" "h" (some [("a", "1")]) none
        (serverWith resp200Json)) = [.post]) ∧
    (truthyDict (some [("a", "1")]) = false →
      issuedMethods (RestateService.dynamicCall "http://b/svc" "h" (some [("a", "1")]) none
        (some ()) (serverWith resp200Json)) = [.get] ∧
      issuedMethods (RestateAsyncService.dynamicCall "http://b/svc" "h" (some [("a", "1")]) none
        (serverWith resp200Json)) = [.get])) :=
  ⟨by decide,
   C8_dynamic_dispatch_amended "http://b/svc" "h" "k" (some [("a", "1")]) none
     (serverWith resp200Json) (by decide)⟩

/-- C9: with the synchronous session absent (as in the test-harness environment), every
send, attach and output operation returns None without raising and issues no request,
while delete_invocation alone, lacking the absent-session guard, raises an AttributeError
from the attribute access on None before any of its failure handling applies. -/
theorem C9_absent_session (base svc h k ik invocation_id : String) (p : Dict)
    (key : Option String) (d : Int) (oik : Option String)
    (server : Request → ServerBehavior) :
    RestateClient.service_send base svc h p d oik none server = ([], .ok .pyNone) ∧
    RestateClient.object_send base svc h k p d oik none server = ([], .ok .pyNone) ∧
    RestateClient.generic_send base svc h p key d oik none server = ([], .ok .pyNone) ∧
    RestateClient.service_attach base svc h ik none server = ([], .ok .pyNone) ∧
    RestateClient.object_attach base svc h k ik none server = ([], .ok .pyNone) ∧
    RestateClient.generic_attach base svc h ik key none server = ([], .ok .pyNone) ∧
    RestateClient.service_output base svc h ik none server = ([], .ok .pyNone) ∧
    RestateClient.object_output base svc h k ik none server = ([], .ok .pyNone) ∧
    RestateClient.generic_output base svc h ik key none server = ([], .ok .pyNone) ∧
    RestateClient.delete_invocation base invocation_id none server
      = ([], .error (.attributeError "NoneType object has no attribute delete")) := by
  refine ⟨rfl, rfl, ?g1, rfl, rfl, ?g2, rfl, rfl, ?g3, rfl⟩
  case g1 => unfold RestateClient.generic_send; split <;> rfl
  case g2 => unfold RestateClient.generic_attach; split <;> rfl
  case g3 => unfold RestateClient.generic_output; split <;> rfl

theorem sync_service_send_no_key_error (base svc h : String) (p : Dict) (d : Int)
    (oik : Option String) (session : Option Unit) (server : Request → ServerBehavior) :
    isKeyRequiredError (RestateClient.service_send base svc h p d oik session server).2 = false := by
  unfold RestateClient.service_send
  rcases session with _ | _
  · rfl
  · (repeat' (first | split | dsimp only)) <;> rfl

theorem sync_service_attach_no_key_error (base svc h ik : String) (session : Option Unit)
    (server : Request → ServerBehavior) :
    isKeyRequiredError (RestateClient.service_attach base svc h ik session server).2 = false := by
  unfold RestateClient.service_attach
  rcases session with _ | _
  · rfl
  · (repeat' (first | split | dsimp only)) <;>
      first | rfl | (unfold syncDecodeBody; (repeat' split) <;> rfl)

theorem sync_service_output_no_key_error (base svc h ik : String) (session : Option Unit)
    (server : Request → ServerBehavior) :
    isKeyRequiredError (RestateClient.service_output base svc h ik session server).2 = false := by
  unfold RestateClient.service_output
  rcases session with _ | _
  · rfl
  · (repeat' (first | split | dsimp only)) <;>
      first | rfl | (unfold syncDecodeBody; (repeat' split) <;> rfl)

theorem async_service_send_no_key_error (base svc h : String) (p : Dict) (d : Int)
    (oik : Option String) (server : Request → ServerBehavior) :
    isKeyRequiredError (RestateAsyncClient.service_send base svc h p d oik server).2 = false := by
  unfold RestateAsyncClient.service_send
  (repeat' (first | split | dsimp only)) <;> rfl

theorem async_service_attach_no_key_error (base svc h ik : String)
    (server : Request → ServerBehavior) :
    isKeyRequiredError (RestateAsyncClient.service_attach base svc h ik server).2 = false := by
  unfold RestateAsyncClient.service_attach
  (repeat' (first | split | dsimp only)) <;> rfl

theorem async_service_output_no_key_error (base svc h ik : String)
    (server : Request → ServerBehavior) :
    isKeyRequiredError (RestateAsyncClient.service_output base svc h ik server).2 = false := by
  unfold RestateAsyncClient.service_output
  (repeat' (first | split | dsimp only)) <;> rfl

/-- C10: an explicitly supplied empty key makes generic_send, generic_attach and
generic_output behave exactly as with an absent key: they route to the service variant,
and the key-validation error of the object variants can never be raised, in both the
synchronous and the asynchronous client. -/
theorem C10_empty_key_routing (base svc h ik : String) (p : Dict) (d : Int)
    (oik : Option String) (session : Option Unit) (server : Request → ServerBehavior) :
    RestateClient.generic_send base svc h p (some "") d oik session server
      = RestateClient.generic_send base svc h p none d oik session server ∧
    RestateClient.generic_send base svc h p (some "") d oik session server
      = RestateClient.service_send base svc h p d oik session server ∧
    RestateClient.generic_attach base svc h ik (some "") session server
      = RestateClient.generic_attach base svc h ik none session server ∧
    RestateClient.generic_attach base svc h ik (some "") session server
      = RestateClient.service_attach base svc h ik session server ∧
    RestateClient.generic_output base svc h ik (some "") session server
      = RestateClient.generic_output base svc h ik none session server ∧
    RestateClient.generic_output base svc h ik (some "") session server
      = RestateClient.service_output base svc h ik session server ∧
    RestateAsyncClient.generic_send base svc h p (some "") d oik server
      = RestateAsyncClient.generic_send base svc h p none d oik server ∧
    RestateAsyncClient.generic_send base svc h p (some "") d oik server
      = RestateAsyncClient.service_send base svc h p d oik server ∧
    RestateAsyncClient.generic_attach base svc h ik (some "") server
      = RestateAsyncClient.generic_attach base svc h ik none server ∧
    RestateAsyncClient.generic_attach base svc h ik (some "") server
      = RestateAsyncClient.service_attach base svc h ik server ∧
    RestateAsyncClient.generic_output base svc h ik (some "") server
      = RestateAsyncClient.generic_output base svc h ik none server ∧
    RestateAsyncClient.generic_output base svc h ik (some "") server
      = RestateAsyncClient.service_output base svc h ik server ∧
    isKeyRequiredError
      (RestateClient.generic_send base svc h p (some "") d oik session server).2 = false ∧
    isKeyRequiredError
      (RestateClient.generic_attach base svc h ik (some "") session server).2 = false ∧
    isKeyRequiredError
      (RestateClient.generic_output base svc h ik (some "") session server).2 = false ∧
    isKeyRequiredError
      (RestateAsyncClient.generic_send base svc h p (some "") d oik server).2 = false ∧
    isKeyRequiredError
      (RestateAsyncClient.generic_attach base svc h ik (some "") server).2 = false ∧
    isKeyRequiredError
      (RestateAsyncClient.generic_output base svc h ik (some "") server).2 = false :=
  ⟨rfl, rfl, rfl, rfl, rfl, rfl, rfl, rfl, rfl, rfl, rfl, rfl,
   sync_service_send_no_key_error base svc h p d oik session server,
   sync_service_attach_no_key_error base svc h ik session server,
   sync_service_output_no_key_error base svc h ik session server,
   async_service_send_no_key_error base svc h p d oik server,
   async_service_attach_no_key_error base svc h ik server,
   async_service_output_no_key_error base svc h ik server⟩

end RestateClientPy
